import Mathlib

/-!
Verification development for `rosnav/model/feature_extractors/resnet.py`
(the `MID_FUSION_BOTTLENECK_EXTRACTOR_1` feature extractor).

The Python code builds a residual convolutional network once at
construction time and then, per forward call, slices a flattened
observation tensor into scan / pedestrian / goal parts and pushes them
through the network.  Weights are opaque for every property treated
here; what matters is the *structure* of the network (which blocks,
strides, dilations and shortcuts are created) and the *shapes* of all
tensors flowing through the forward pass.  The embedding therefore
models:

* convolution operators by their configuration records and their
  effect on tensor shapes (the standard output-size formula
  `(n + 2*padding - (dilation*(kernel-1) + 1)) / stride + 1`);
* batch-normalization layers by their (constant-initialized) affine
  parameters, which is exactly what the initialization claims are
  about; batch normalization and ReLU do not change shapes, so they
  are omitted from the shape pipeline;
* the observation slicing of `forward` by Python list slicing on a
  single row of the batch (slicing acts row-wise);
* `_make_layer`, `_setup_network` and `_forward_impl` directly,
  with the mutable `self.inplanes` / `self.dilation` counters made
  explicit as a `BuildCtx` value threaded through stage construction.
-/

namespace Rosnav

/-- Configuration of a 2-D convolution operator (`torch.nn.Conv2d`):
input/output channel counts, square kernel size, stride, padding,
groups, dilation and whether a bias term is present.  Only the data
that determines output shapes and parameter shapes is kept. -/
structure Conv2d where
  in_channels : Nat
  out_channels : Nat
  kernel : Nat
  stride : Nat
  padding : Nat
  groups : Nat
  dilation : Nat
  bias : Bool
  deriving DecidableEq, Repr

/-- `conv3x3` from the source: 3x3 convolution, `padding = dilation`,
no bias. -/
def conv3x3 (in_planes out_planes stride groups dilation : Nat) : Conv2d :=
  ⟨in_planes, out_planes, 3, stride, dilation, groups, dilation, false⟩

/-- `conv1x1` from the source: 1x1 convolution, no padding, no bias. -/
def conv1x1 (in_planes out_planes stride : Nat) : Conv2d :=
  ⟨in_planes, out_planes, 1, stride, 0, 1, 1, false⟩

/-- Shape of a 4-D tensor in `(batch, channels, height, width)` layout. -/
structure Shape4 where
  b : Nat
  c : Nat
  h : Nat
  w : Nat
  deriving DecidableEq, Repr

/-- Spatial output size of a convolution / pooling window:
`floor((n + 2*padding - dilation*(kernel-1) - 1) / stride) + 1`. -/
def convOut (n kernel stride padding dilation : Nat) : Nat :=
  (n + 2 * padding - (dilation * (kernel - 1) + 1)) / stride + 1

/-- Applying a convolution to a shaped tensor.  Fails (like the PyTorch
runtime) when the input channel count does not match, when the groups
do not divide the channel counts, when stride/dilation/groups are not
positive, or when the window does not fit into the padded input. -/
def conv2dShape (cv : Conv2d) (s : Shape4) : Option Shape4 :=
  if s.c = cv.in_channels ∧ 1 ≤ cv.stride ∧ 1 ≤ cv.dilation ∧ 1 ≤ cv.groups
      ∧ cv.in_channels % cv.groups = 0 ∧ cv.out_channels % cv.groups = 0
      ∧ cv.dilation * (cv.kernel - 1) + 1 ≤ s.h + 2 * cv.padding
      ∧ cv.dilation * (cv.kernel - 1) + 1 ≤ s.w + 2 * cv.padding then
    some ⟨s.b, cv.out_channels,
      convOut s.h cv.kernel cv.stride cv.padding cv.dilation,
      convOut s.w cv.kernel cv.stride cv.padding cv.dilation⟩
  else
    none

/-- Affine parameters of one normalization layer (`weight` is the
per-channel scale, `bias` the per-channel shift; both are initialized
to constants by the network, so one scalar each suffices). -/
structure BN where
  weight : Int
  bias : Int
  deriving DecidableEq, Repr

/-- The constant initialization `weight = 1`, `bias = 0` applied by the
initialization loop to every normalization layer. -/
def bnOne : BN := ⟨1, 0⟩

/-- The expansion factor of the `Bottleneck` class (`expansion = 2`
in the source, not the torchvision value 4). -/
def Bottleneck.expansion : Nat := 2

/-- Internal channel width of a bottleneck block, from
`width = int(planes * (base_width / 64.0)) * groups`.  `base_width / 64.0`
is a dyadic rational, so for any realistic configuration
(`planes * base_width < 2^53`) the float product is exact and the
truncation equals natural floor division by 64 - taken BEFORE the
multiplication by `groups`. -/
def bottleneck_width (planes base_width groups : Nat) : Nat :=
  planes * base_width / 64 * groups

/-- One residual bottleneck block: the constructor arguments of
`Bottleneck.__init__` plus the affine state of its three
normalization layers and of the optional projection shortcut
(`downsample`), which is a 1x1 convolution followed by normalization. -/
structure Bottleneck where
  inplanes : Nat
  planes : Nat
  stride : Nat
  downsample : Option (Conv2d × BN)
  groups : Nat
  base_width : Nat
  dilation : Nat
  bn1 : BN
  bn2 : BN
  bn3 : BN
  deriving DecidableEq, Repr

/-- Internal width of a block (source line `width = int(planes *
(base_width / 64.0)) * groups`). -/
def Bottleneck.width (m : Bottleneck) : Nat :=
  bottleneck_width m.planes m.base_width m.groups

/-- Builds a block the way `Bottleneck.__init__` does: `conv1` is
`conv1x1(inplanes, width)`, `conv2` is `conv3x3(width, width, stride,
groups, dilation)`, `conv3` is `conv1x1(width, planes * expansion)`;
all three normalization layers start in the state `bnInit` (whatever
the normalization class initializes itself to - overwritten later by
the extractor's initialization loop). -/
def mkBottleneck (inplanes planes stride : Nat) (downsample : Option (Conv2d × BN))
    (groups base_width dilation : Nat) (bnInit : BN) : Bottleneck :=
  ⟨inplanes, planes, stride, downsample, groups, base_width, dilation, bnInit, bnInit, bnInit⟩

/-- Shape of the identity path: the input itself, or the projection
shortcut applied to it. -/
def downsampleShape (ds : Option (Conv2d × BN)) (s : Shape4) : Option Shape4 :=
  match ds with
  | none => some s
  | some (cv, _) => conv2dShape cv s

/-- Shape semantics of `Bottleneck.forward`: conv1 -> conv2 -> conv3 on
the main path (normalizations and ReLU preserve shapes), the identity
path through the optional shortcut, and the residual sum
`out += identity`, which fails unless both shapes agree exactly. -/
def Bottleneck.forwardShape (m : Bottleneck) (s : Shape4) : Option Shape4 :=
  match conv2dShape (conv1x1 m.inplanes m.width 1) s with
  | none => none
  | some out1 =>
  match conv2dShape (conv3x3 m.width m.width m.stride m.groups m.dilation) out1 with
  | none => none
  | some out2 =>
  match conv2dShape (conv1x1 m.width (m.planes * Bottleneck.expansion) 1) out2 with
  | none => none
  | some out3 =>
  match downsampleShape m.downsample s with
  | none => none
  | some identity =>
  if out3 = identity then some out3 else none

/-- Shape semantics of an `nn.Sequential` of bottleneck blocks. -/
def stageShape (ms : List Bottleneck) (s : Shape4) : Option Shape4 :=
  match ms with
  | [] => some s
  | m :: rest =>
    match Bottleneck.forwardShape m s with
    | none => none
    | some s1 => stageShape rest s1

/-- The mutable construction state of the network assembler:
`self.inplanes` (running input channel count) and `self.dilation`
(cumulative dilation). -/
structure BuildCtx where
  inplanes : Nat
  dilation : Nat
  deriving DecidableEq, Repr

/-- `_make_layer(block, planes, blocks, stride, dilate)` of the
extractor.  Mirrors the source exactly: `previous_dilation` is saved,
`dilate` folds the requested stride into the cumulative dilation and
resets the stride to 1, a projection shortcut is created when the
(possibly reset) stride differs from 1 or the channel count changes,
the first block receives the stride, the shortcut and
`previous_dilation`, and each of the remaining `blocks - 1` blocks
receives stride 1, no shortcut and the updated dilation.  Returns the
block list together with the updated construction state. -/
def make_layer (groups base_width : Nat) (bnInit : BN) (planes blocks stride : Nat)
    (dilate : Bool) (ctx : BuildCtx) : List Bottleneck × BuildCtx :=
  let previous_dilation := ctx.dilation
  let new_dilation := if dilate then ctx.dilation * stride else ctx.dilation
  let stride1 := if dilate then 1 else stride
  let downsample : Option (Conv2d × BN) :=
    if stride1 ≠ 1 ∨ ctx.inplanes ≠ planes * Bottleneck.expansion then
      some (conv1x1 ctx.inplanes (planes * Bottleneck.expansion) stride1, bnInit)
    else
      none
  let first := mkBottleneck ctx.inplanes planes stride1 downsample groups base_width
    previous_dilation bnInit
  let rest := List.replicate (blocks - 1)
    (mkBottleneck (planes * Bottleneck.expansion) planes 1 none groups base_width
      new_dilation bnInit)
  (first :: rest, ⟨planes * Bottleneck.expansion, new_dilation⟩)

/-- The per-modality sizes resolved once at construction by
`_get_input_sizes` from the observation-space registry:
`_feature_map_size` (spatial side length S), `_scan_map_size`,
`_ped_map_size` (location + type) and `_goal_size`. -/
structure FusionSizes where
  feature_map_size : Nat
  scan_map_size : Nat
  ped_map_size : Nat
  goal_size : Nat
  deriving DecidableEq, Repr

/-- The three slices `forward` extracts from one row of the
observation batch, in the argument order of `_forward_impl`. -/
structure Slices (α : Type) where
  ped_pos : List α
  scan : List α
  goal : List α
  deriving DecidableEq, Repr

/-- Python slice `row[:b]`. -/
def pySliceTake {α : Type} (row : List α) (b : Nat) : List α :=
  row.take b

/-- Python slice `row[a:b]` for nonnegative bounds. -/
def pySliceBetween {α : Type} (row : List α) (a b : Nat) : List α :=
  (row.take b).drop a

/-- Python slice `row[:-g]` (empty when `g = 0`, because `row[:0]` is
empty). -/
def pySliceDropLast {α : Type} (row : List α) (g : Nat) : List α :=
  if g = 0 then [] else row.take (row.length - g)

/-- Python slice `row[-g:]` (the whole row when `g = 0`): the final `g`
features of the row.  Used to state what the specification says the
goal slice should be. -/
def pySliceLast {α : Type} (row : List α) (g : Nat) : List α :=
  if g = 0 then row else row.drop (row.length - g)

/-- The slicing performed by `forward` on one row of the observation
batch, for both values of the construction flag `stacked_obs`; the two
branches of the source are written out separately because the source
has two (textually identical) branches:
`scan = observations[:, :scan_map_size]`,
`ped_pos = observations[:, scan_map_size:ped_map_size]`,
`goal = observations[:, :-goal_size]`. -/
def forward_slices {α : Type} (stacked : Bool) (sz : FusionSizes) (row : List α) : Slices α :=
  if stacked = false then
    { scan := pySliceTake row sz.scan_map_size
      ped_pos := pySliceBetween row sz.scan_map_size sz.ped_map_size
      goal := pySliceDropLast row sz.goal_size }
  else
    { scan := pySliceTake row sz.scan_map_size
      ped_pos := pySliceBetween row sz.scan_map_size sz.ped_map_size
      goal := pySliceDropLast row sz.goal_size }

/-- Length of the scan slice of one row of length `n`. -/
def scanSliceLen (sz : FusionSizes) (n : Nat) : Nat :=
  min sz.scan_map_size n

/-- Length of the pedestrian slice of one row of length `n`. -/
def pedSliceLen (sz : FusionSizes) (n : Nat) : Nat :=
  min sz.ped_map_size n - min sz.scan_map_size n

/-- Length of the goal slice of one row of length `n`. -/
def goalSliceLen (sz : FusionSizes) (n : Nat) : Nat :=
  if sz.goal_size = 0 then 0 else n - sz.goal_size

/-- The state built by `_setup_network`: the stem normalization, the
three stages of bottleneck blocks, and the normalization layers of the
two fusion branches (`conv2_2`, `downsample2`, `conv3_2`,
`downsample3`).  Convolution and linear weights are opaque (randomly
initialized) and carry no claim, so only their fixed configurations
appear, as constants below. -/
structure Network where
  bn1 : BN
  layer1 : List Bottleneck
  layer2 : List Bottleneck
  layer3 : List Bottleneck
  conv2_2_bn1 : BN
  conv2_2_bn2 : BN
  conv2_2_bn3 : BN
  downsample2_bn : BN
  conv3_2_bn1 : BN
  conv3_2_bn2 : BN
  conv3_2_bn3 : BN
  downsample3_bn : BN
  deriving DecidableEq, Repr

/-- Stem convolution `nn.Conv2d(3, 64, kernel_size=3, stride=1,
padding=1, bias=False)`. -/
def stemConv : Conv2d := ⟨3, 64, 3, 1, 1, 1, 1, false⟩

/-- `downsample2`: 1x1 convolution, 128 -> 256 channels, stride 2. -/
def downsample2Conv : Conv2d := ⟨128, 256, 1, 2, 0, 1, 1, true⟩

/-- `downsample3`: 1x1 convolution, 64 -> 512 channels, stride 4. -/
def downsample3Conv : Conv2d := ⟨64, 512, 1, 4, 0, 1, 1, true⟩

/-- The three convolutions of the fusion branch `conv2_2`
(256 -> 128 -> 128 -> 256, kernels 1/3/1, all stride 1). -/
def conv2_2Convs : List Conv2d :=
  [⟨256, 128, 1, 1, 0, 1, 1, true⟩, ⟨128, 128, 3, 1, 1, 1, 1, true⟩,
   ⟨128, 256, 1, 1, 0, 1, 1, true⟩]

/-- The three convolutions of the fusion branch `conv3_2`
(512 -> 256 -> 256 -> 512, kernels 1/3/1, all stride 1). -/
def conv3_2Convs : List Conv2d :=
  [⟨512, 256, 1, 1, 0, 1, 1, true⟩, ⟨256, 256, 3, 1, 1, 1, 1, true⟩,
   ⟨256, 512, 1, 1, 0, 1, 1, true⟩]

/-- First initialization pass of `_setup_network`: every normalization
layer in the network gets `weight = 1`, `bias = 0` (block version). -/
def constInitBottleneck (m : Bottleneck) : Bottleneck :=
  { m with bn1 := bnOne, bn2 := bnOne, bn3 := bnOne,
           downsample := m.downsample.map (fun p => (p.1, bnOne)) }

/-- First initialization pass of `_setup_network` over the whole
network: `nn.init.constant_(m.weight, 1); nn.init.constant_(m.bias, 0)`
for every normalization module. -/
def constInitPass (n : Network) : Network :=
  { bn1 := bnOne
    layer1 := n.layer1.map constInitBottleneck
    layer2 := n.layer2.map constInitBottleneck
    layer3 := n.layer3.map constInitBottleneck
    conv2_2_bn1 := bnOne
    conv2_2_bn2 := bnOne
    conv2_2_bn3 := bnOne
    downsample2_bn := bnOne
    conv3_2_bn1 := bnOne
    conv3_2_bn2 := bnOne
    conv3_2_bn3 := bnOne
    downsample3_bn := bnOne }

/-- Second initialization pass: `nn.init.constant_(m.bn3.weight, 0)`
for every `Bottleneck` instance (the bias is left unchanged). -/
def zeroInitBottleneck (m : Bottleneck) : Bottleneck :=
  { m with bn3 := ⟨0, m.bn3.bias⟩ }

/-- Second initialization pass over the whole network (only runs when
`zero_init_residual` is set). -/
def zeroInitPass (n : Network) : Network :=
  { n with layer1 := n.layer1.map zeroInitBottleneck
           layer2 := n.layer2.map zeroInitBottleneck
           layer3 := n.layer3.map zeroInitBottleneck }

/-- The full initialization policy applied at the end of
`_setup_network`. -/
def initWeights (zero_init_residual : Bool) (n : Network) : Network :=
  if zero_init_residual then zeroInitPass (constInitPass n) else constInitPass n

/-- `_setup_network`: defaults the dilation-substitution flag list to
all-false when it is `None`, fails with a `ValueError` when the list
length differs from the stage count, and otherwise builds the three
stages (64/128/256 wide, strides 1/2/2, `dilate` taken from the first
two flags) threading the running `inplanes = 64`, `dilation = 1`
counters, and finally applies the initialization policy.  `bnInit` is
the state a freshly constructed normalization layer starts in. -/
def setup_network (layers : List Nat) (replace_stride_with_dilation : Option (List Bool))
    (groups width_per_group : Nat) (zero_init_residual : Bool) (bnInit : BN) :
    Except String Network :=
  let flags := match replace_stride_with_dilation with
    | none => List.replicate layers.length false
    | some l => l
  if flags.length ≠ layers.length then
    Except.error "replace_stride_with_dilation should be None or a tuple of the same length as layers"
  else
    let r1 := make_layer groups width_per_group bnInit 64 (layers.getD 0 0) 1 false ⟨64, 1⟩
    let r2 := make_layer groups width_per_group bnInit 128 (layers.getD 1 0) 2
      (flags.getD 0 false) r1.2
    let r3 := make_layer groups width_per_group bnInit 256 (layers.getD 2 0) 2
      (flags.getD 1 false) r2.2
    Except.ok (initWeights zero_init_residual
      ⟨bnInit, r1.1, r2.1, r3.1, bnInit, bnInit, bnInit, bnInit, bnInit, bnInit, bnInit, bnInit⟩)

/-- `Except` to `Option`, dropping the error message. -/
def exceptToOption {ε α : Type} (e : Except ε α) : Option α :=
  match e with
  | Except.ok a => some a
  | Except.error _ => none

/-- Batch size inferred by `tensor.reshape(-1, ...)`: the element count
must be a positive multiple of the per-item size. -/
def inferBatch (numel perItem : Nat) : Option Nat :=
  if 1 ≤ perItem ∧ numel % perItem = 0 then some (numel / perItem) else none

/-- `torch.cat((s, t), dim=1)` on 4-D tensors: batch and spatial sizes
must agree, channel counts add. -/
def catChannels (s t : Shape4) : Option Shape4 :=
  if s.b = t.b ∧ s.h = t.h ∧ s.w = t.w then some ⟨s.b, s.c + t.c, s.h, s.w⟩ else none

/-- In-place residual sum `x += identity`: the shapes must agree
exactly (the specification forbids implicit broadcasting here). -/
def addShape (s t : Shape4) : Option Shape4 :=
  if s = t then some s else none

/-- `nn.MaxPool2d(kernel_size, stride, padding)` output shape
(channels unchanged, dilation 1). -/
def maxpoolShape (kernel stride padding : Nat) (s : Shape4) : Option Shape4 :=
  if 1 ≤ stride ∧ (kernel - 1) + 1 ≤ s.h + 2 * padding
      ∧ (kernel - 1) + 1 ≤ s.w + 2 * padding then
    some ⟨s.b, s.c, convOut s.h kernel stride padding 1, convOut s.w kernel stride padding 1⟩
  else
    none

/-- Shape semantics of an `nn.Sequential` of convolutions (the
interleaved normalizations and ReLUs preserve shapes). -/
def seqConvShape (cs : List Conv2d) (s : Shape4) : Option Shape4 :=
  match cs with
  | [] => some s
  | cv :: rest =>
    match conv2dShape cv s with
    | none => none
    | some s1 => seqConvShape rest s1

/-- `nn.AdaptiveAvgPool2d((1, 1))` followed by `torch.flatten(x, 1)`:
requires a nonempty spatial extent and yields a 2-D `(batch, channels)`
tensor. -/
def avgpoolFlattenShape (s : Shape4) : Option (Nat × Nat) :=
  if 1 ≤ s.h ∧ 1 ≤ s.w then some (s.b, s.c * 1 * 1) else none

/-- `torch.cat((s, t), dim=1)` on 2-D tensors. -/
def cat2Shape (s t : Nat × Nat) : Option (Nat × Nat) :=
  if s.1 = t.1 then some (s.1, s.2 + t.2) else none

/-- `nn.Linear(inFeatures, outFeatures)`: the last dimension must
equal `inFeatures`. -/
def linearShape (inFeatures outFeatures : Nat) (s : Nat × Nat) : Option (Nat × Nat) :=
  if s.2 = inFeatures then some (s.1, outFeatures) else none

/-- Shape semantics of `_forward_impl(ped_pos, scan, goal)`: reshape
the pedestrian slice to `(-1, 2, S, S)` and the scan slice to
`(-1, 1, S, S)`, concatenate on the channel axis, run the stem
(conv1 / bn1 / relu / maxpool), save `identity3 = downsample3(x)`,
run stage 1, save `identity2 = downsample2(x)`, run stage 2, fusion
branch `conv2_2` plus `identity2`, stage 3, fusion branch `conv3_2`
plus `identity3`, global average pool and flatten, reshape the goal
slice to `(-1, 2)`, concatenate, and apply the final linear layer
`nn.Linear(256 * expansion + 2, features_dim)`.  `B` is the batch
size, `pedLen`/`scanLen`/`goalLen` the per-row slice lengths. -/
def forward_impl_shape (net : Network) (sz : FusionSizes) (features_dim B pedLen scanLen goalLen : Nat) :
    Option (Nat × Nat) :=
  match inferBatch (B * pedLen) (2 * sz.feature_map_size * sz.feature_map_size) with
  | none => none
  | some pedB =>
  match inferBatch (B * scanLen) (1 * sz.feature_map_size * sz.feature_map_size) with
  | none => none
  | some scanB =>
  match catChannels ⟨scanB, 1, sz.feature_map_size, sz.feature_map_size⟩
      ⟨pedB, 2, sz.feature_map_size, sz.feature_map_size⟩ with
  | none => none
  | some fusionIn =>
  match conv2dShape stemConv fusionIn with
  | none => none
  | some x0 =>
  match maxpoolShape 3 1 1 x0 with
  | none => none
  | some x1 =>
  match conv2dShape downsample3Conv x1 with
  | none => none
  | some identity3 =>
  match stageShape net.layer1 x1 with
  | none => none
  | some x2 =>
  match conv2dShape downsample2Conv x2 with
  | none => none
  | some identity2 =>
  match stageShape net.layer2 x2 with
  | none => none
  | some x3 =>
  match seqConvShape conv2_2Convs x3 with
  | none => none
  | some x4 =>
  match addShape x4 identity2 with
  | none => none
  | some x5 =>
  match stageShape net.layer3 x5 with
  | none => none
  | some x6 =>
  match seqConvShape conv3_2Convs x6 with
  | none => none
  | some x7 =>
  match addShape x7 identity3 with
  | none => none
  | some x8 =>
  match avgpoolFlattenShape x8 with
  | none => none
  | some fusionOut =>
  match inferBatch (B * goalLen) 2 with
  | none => none
  | some goalB =>
  match cat2Shape fusionOut (goalB, 2) with
  | none => none
  | some fcIn => linearShape (256 * Bottleneck.expansion + 2) features_dim fcIn

/-- Shape semantics of `forward`: slice every row of the
`(B, n)` observation batch as the source does (both branches of the
`stacked_obs` test are written out, as in the source) and hand the
slices to `_forward_impl`. -/
def forward_shape (stacked : Bool) (net : Network) (sz : FusionSizes)
    (features_dim B n : Nat) : Option (Nat × Nat) :=
  if stacked = false then
    forward_impl_shape net sz features_dim B (pedSliceLen sz n) (scanSliceLen sz n)
      (goalSliceLen sz n)
  else
    forward_impl_shape net sz features_dim B (pedSliceLen sz n) (scanSliceLen sz n)
      (goalSliceLen sz n)

/-- Modelled from the spec: the external observation-space registry
(an interface of this repository outside the reviewed source) reports,
for spatial side length `S = 80`, a stacked laser map of `S * S = 6400`
features, pedestrian location and type maps of `S * S` features each
(so `_ped_map_size = 12800`), and a 2-dimensional goal - the worked
example of the specification. -/
def fusionSizes80 : FusionSizes := ⟨80, 6400, 12800, 2⟩

/-- Total length of one flattened observation row: scan map, then
pedestrian location+type map, then goal vector, concatenated in that
fixed order. -/
def totalObsLen (sz : FusionSizes) : Nat :=
  sz.scan_map_size + sz.ped_map_size + sz.goal_size

/-- Example sizes for the slicing counterexample: `S = 2`, scan map of
4 features, pedestrian location+type of `2 * S * S = 8` features, goal
of 2 features (total row length 14). -/
def sizesSmall : FusionSizes := ⟨2, 4, 8, 2⟩

/-- A concrete observation row of length `totalObsLen sizesSmall = 14`
whose entries name their own column indices. -/
def obsRow : List Nat := [0, 1, 2, 3, 4, 5, 6, 7, 8, 9, 10, 11, 12, 13]

/-- A placeholder network (used only to extract the successful result
of `setup_network` in closed witness statements). -/
def emptyNet : Network :=
  ⟨bnOne, [], [], [], bnOne, bnOne, bnOne, bnOne, bnOne, bnOne, bnOne, bnOne⟩

/-- Normalization layer in the state the first initialization pass
leaves it in. -/
def bnIsInit (b : BN) : Bool :=
  b.weight == 1 && b.bias == 0

/-- Normalization layer with zeroed weight (and zero bias). -/
def bnIsZero (b : BN) : Bool :=
  b.weight == 0 && b.bias == 0

/-- The normalization state claimed after construction with
`zero_init_residual = true`, per block: first and second
normalizations (and the shortcut normalization, when present) have
weight 1 and bias 0, the third has weight 0 (and bias 0). -/
def bottleneckBNInit (m : Bottleneck) : Bool :=
  bnIsInit m.bn1 && bnIsInit m.bn2 && bnIsZero m.bn3 &&
    (match m.downsample with
     | none => true
     | some p => bnIsInit p.2)

/-- The normalization state claimed after construction with
`zero_init_residual = true`, over the whole network: every block as in
`bottleneckBNInit`, every other normalization layer with weight 1 and
bias 0. -/
def netBNZeroInit (n : Network) : Bool :=
  bnIsInit n.bn1 &&
  n.layer1.all bottleneckBNInit && n.layer2.all bottleneckBNInit &&
  n.layer3.all bottleneckBNInit &&
  bnIsInit n.conv2_2_bn1 && bnIsInit n.conv2_2_bn2 && bnIsInit n.conv2_2_bn3 &&
  bnIsInit n.downsample2_bn &&
  bnIsInit n.conv3_2_bn1 && bnIsInit n.conv3_2_bn2 && bnIsInit n.conv3_2_bn3 &&
  bnIsInit n.downsample3_bn

/-! ### Helper lemmas -/

/-- A 1x1 convolution at stride 1 preserves batch and (nonempty)
spatial sizes, and maps the channel count to `cout`. -/
lemma conv1x1_shape_stride1 (cin cout : Nat) (s : Shape4) (hc : s.c = cin)
    (hh : 1 ≤ s.h) (hw : 1 ≤ s.w) :
    conv2dShape (conv1x1 cin cout 1) s = some ⟨s.b, cout, s.h, s.w⟩ := by
  have e1 : convOut s.h 1 1 0 1 = s.h := by unfold convOut; omega
  have e2 : convOut s.w 1 1 0 1 = s.w := by unfold convOut; omega
  simp only [conv2dShape, conv1x1]
  rw [if_pos]
  · rw [e1, e2]
  · refine ⟨hc, ?_, ?_, ?_, ?_, ?_, ?_, ?_⟩ <;> omega

/-- A 3x3 convolution at stride 1 with `padding = dilation` preserves
batch and (nonempty) spatial sizes, for any dilation. -/
lemma conv3x3_shape_stride1 (cin cout g d : Nat) (s : Shape4) (hc : s.c = cin)
    (hg : 1 ≤ g) (hd : 1 ≤ d) (hgin : cin % g = 0) (hgout : cout % g = 0)
    (hh : 1 ≤ s.h) (hw : 1 ≤ s.w) :
    conv2dShape (conv3x3 cin cout 1 g d) s = some ⟨s.b, cout, s.h, s.w⟩ := by
  have e1 : convOut s.h 3 1 d d = s.h := by unfold convOut; omega
  have e2 : convOut s.w 3 1 d d = s.w := by unfold convOut; omega
  simp only [conv2dShape, conv3x3]
  rw [if_pos]
  · rw [e1, e2]
  · refine ⟨hc, ?_, ?_, ?_, ?_, ?_, ?_, ?_⟩ <;> omega

/-- Shape evaluation of a stride-1 bottleneck block whose shortcut is
either absent (then `inplanes` must already equal `planes * 2`) or the
1x1 projection `conv1x1(inplanes, planes * 2, 1)` created by the stage
builder: the block maps `(b, inplanes, h, w)` to `(b, planes * 2, h, w)`. -/
lemma bottleneck_forwardShape_stride1 (inp p g bw d b h w : Nat)
    (ds : Option (Conv2d × BN)) (x1 x2 x3 : BN)
    (hg : 1 ≤ g) (hd : 1 ≤ d) (hh : 1 ≤ h) (hw : 1 ≤ w)
    (hds : (ds = none ∧ inp = p * 2) ∨ ∃ bn, ds = some (conv1x1 inp (p * 2) 1, bn)) :
    Bottleneck.forwardShape ⟨inp, p, 1, ds, g, bw, d, x1, x2, x3⟩ ⟨b, inp, h, w⟩
      = some ⟨b, p * 2, h, w⟩ := by
  have hwidth : bottleneck_width p bw g % g = 0 := Nat.mul_mod_left _ _
  have h1 : conv2dShape (conv1x1 inp (bottleneck_width p bw g) 1) ⟨b, inp, h, w⟩
      = some ⟨b, bottleneck_width p bw g, h, w⟩ :=
    conv1x1_shape_stride1 _ _ _ rfl hh hw
  have h2 : conv2dShape
      (conv3x3 (bottleneck_width p bw g) (bottleneck_width p bw g) 1 g d)
      ⟨b, bottleneck_width p bw g, h, w⟩
      = some ⟨b, bottleneck_width p bw g, h, w⟩ :=
    conv3x3_shape_stride1 _ _ _ _ _ rfl hg hd hwidth hwidth hh hw
  have h3 : conv2dShape (conv1x1 (bottleneck_width p bw g) (p * Bottleneck.expansion) 1)
      ⟨b, bottleneck_width p bw g, h, w⟩
      = some ⟨b, p * Bottleneck.expansion, h, w⟩ :=
    conv1x1_shape_stride1 _ _ _ rfl hh hw
  rcases hds with ⟨hnone, hinp⟩ | ⟨bn, hsome⟩
  · subst hnone
    subst hinp
    simp only [Bottleneck.forwardShape, Bottleneck.width, h1, h2, h3, downsampleShape]
    rw [if_pos]
    · simp [Bottleneck.expansion]
    · simp [Bottleneck.expansion]
  · subst hsome
    have h4 : conv2dShape (conv1x1 inp (p * 2) 1) ⟨b, inp, h, w⟩
        = some ⟨b, p * 2, h, w⟩ :=
      conv1x1_shape_stride1 _ _ _ rfl hh hw
    simp only [Bottleneck.forwardShape, Bottleneck.width, h1, h2, h3, downsampleShape, h4]
    rw [if_pos]
    · simp [Bottleneck.expansion]
    · simp [Bottleneck.expansion]

/-- A run of identical stride-1 no-shortcut blocks maps
`(b, p * 2, h, w)` to itself. -/
lemma stageShape_replicate_stride1 (k p g bw d b h w : Nat) (x1 x2 x3 : BN)
    (hg : 1 ≤ g) (hd : 1 ≤ d) (hh : 1 ≤ h) (hw : 1 ≤ w) :
    stageShape (List.replicate k (⟨p * 2, p, 1, none, g, bw, d, x1, x2, x3⟩ : Bottleneck))
      ⟨b, p * 2, h, w⟩ = some ⟨b, p * 2, h, w⟩ := by
  induction k with
  | zero => rfl
  | succ n ih =>
    rw [List.replicate_succ]
    have hb := bottleneck_forwardShape_stride1 (p * 2) p g bw d b h w none x1 x2 x3
      hg hd hh hw (Or.inl ⟨rfl, rfl⟩)
    simp only [stageShape, hb]
    exact ih

/-- Sanity check tying the numeric slice lengths used by the shape
pipeline to the list-level slicing of `forward`. -/
lemma forward_slices_length {α : Type} (stacked : Bool) (sz : FusionSizes) (row : List α) :
    (forward_slices stacked sz row).scan.length = scanSliceLen sz row.length
    ∧ (forward_slices stacked sz row).ped_pos.length = pedSliceLen sz row.length
    ∧ (forward_slices stacked sz row).goal.length = goalSliceLen sz row.length := by
  by_cases hg0 : sz.goal_size = 0 <;>
    cases stacked <;>
      refine ⟨?_, ?_, ?_⟩ <;>
        simp [forward_slices, pySliceTake, pySliceBetween, pySliceDropLast,
          scanSliceLen, pedSliceLen, goalSliceLen, hg0] <;>
        omega

/-- Sanity check of the embedded pipeline: had `forward` passed slices
of the intended lengths (pedestrian 12800, scan 6400, goal 2 for
`S = 80`), `_forward_impl` would produce an output of shape `(4, 256)`
for a batch of 4 - the network architecture itself is consistent. -/
theorem forward_impl_intended_sizes_ok :
    (exceptToOption (setup_network [2, 1, 1] none 1 64 true ⟨1, 0⟩)).map
        (fun net => forward_impl_shape net fusionSizes80 256 4 12800 6400 2)
      = some (some (4, 256)) := by decide

/-! ### Claim theorems -/

/-- C1: evaluation of the slicing that `forward` actually performs, at
a concrete observation row (`scan_map_size = 4`, `ped_map_size = 8`,
`goal_size = 2`, row = column indices 0..13).  The scan slice is the
first `_scan_map_size` features as claimed, but the pedestrian slice
is `obs[:, scan_map_size : ped_map_size]` = columns 4..7 instead of
the claimed columns 4..11 (`scan_map_size` through `scan_map_size +
ped_map_size`), and the goal slice is `obs[:, : -goal_size]` = columns
0..11 instead of the claimed final `goal_size` features. -/
theorem forward_slicing_at_failing_input :
    forward_slices false sizesSmall obsRow
        = ⟨[4, 5, 6, 7], [0, 1, 2, 3], [0, 1, 2, 3, 4, 5, 6, 7, 8, 9, 10, 11]⟩
    ∧ pySliceBetween obsRow sizesSmall.scan_map_size
        (sizesSmall.scan_map_size + sizesSmall.ped_map_size) = [4, 5, 6, 7, 8, 9, 10, 11]
    ∧ pySliceLast obsRow sizesSmall.goal_size = [12, 13]
    ∧ (forward_slices false sizesSmall obsRow).ped_pos
        ≠ pySliceBetween obsRow sizesSmall.scan_map_size
            (sizesSmall.scan_map_size + sizesSmall.ped_map_size)
    ∧ (forward_slices false sizesSmall obsRow).goal ≠ pySliceLast obsRow sizesSmall.goal_size := by
  decide

/-- C2: at the specification's worked example (default construction,
`features_dim = 256`, `S = 80`, derived total observation length
19202, batch 4) the forward pass does not produce an output shape at
all: the mis-sliced pedestrian tensor (6400 instead of 12800 features
per row) reshapes to batch size 2 while the scan tensor keeps batch
size 4, so `torch.cat` fails - instead of the claimed `(4, 256)`
output. -/
theorem forward_shape_crashes_on_derived_input :
    (exceptToOption (setup_network [2, 1, 1] none 1 64 true ⟨1, 0⟩)).map
        (fun net => forward_shape false net fusionSizes80 256 4 (totalObsLen fusionSizes80))
      = some none := by decide

/-- C3: the slicing computed by `forward` - and consequently the whole
shape pipeline - does not depend on the construction-time
`stacked_obs` flag: the two branches of the source are extensionally
equal. -/
theorem forward_stacked_obs_irrelevant (α : Type) (s1 s2 : Bool) (sz : FusionSizes)
    (row : List α) (net : Network) (features_dim B n : Nat) :
    forward_slices s1 sz row = forward_slices s2 sz row
    ∧ forward_shape s1 net sz features_dim B n = forward_shape s2 net sz features_dim B n := by
  cases s1 <;> cases s2 <;> exact ⟨rfl, rfl⟩

/-- C4 counterexample: with `dilate = true`, requested `stride = 2`,
`inplanes = 128 = 64 * 2 = planes * expansion`, the claim's condition
`stride ≠ 1 ∨ inplanes ≠ planes * 2` holds (the requested stride is
2), yet the stage builder creates no projection shortcut, because the
check runs after the dilation substitution has reset the stride to 1. -/
theorem make_layer_downsample_requested_stride_cex :
    ¬ (((make_layer 1 64 ⟨1, 0⟩ 64 1 2 true ⟨128, 1⟩).1.head?.map
          (fun m => m.downsample.isSome) = some true)
        ↔ ((2 : Nat) ≠ 1 ∨ (128 : Nat) ≠ 64 * 2)) := by
  decide

/-- C4 amended: the stage builder creates a projection shortcut for
the first block of a stage if and only if the effective stride - the
requested stride when `dilate` is false, else 1 - differs from 1, or
the current `inplanes` differs from `planes * 2`. -/
theorem make_layer_downsample_iff_effective_stride (groups base_width : Nat) (bnInit : BN)
    (planes blocks stride : Nat) (dilate : Bool) (ctx : BuildCtx) :
    (make_layer groups base_width bnInit planes blocks stride dilate ctx).1.head?.map
        (fun m => m.downsample.isSome)
      = some (decide ((if dilate then 1 else stride) ≠ 1
          ∨ ctx.inplanes ≠ planes * Bottleneck.expansion)) := by
  cases dilate <;>
    by_cases h1 : stride = 1 <;>
      by_cases h2 : ctx.inplanes = planes * Bottleneck.expansion <;>
        simp [make_layer, mkBottleneck, h1, h2]

/-- C9 counterexample: for `planes = 1`, `base_width = 32`,
`groups = 2` the code computes `int(1 * (32 / 64.0)) * 2 = 0`, while
the claimed single rounding `floor(1 * (32 / 64) * 2) = floor(1) = 1`. -/
theorem bottleneck_width_single_floor_cex :
    (bottleneck_width 1 32 2 : Int) ≠ ⌊((1 : ℚ) * (32 / 64) * 2)⌋ := by
  norm_num [bottleneck_width]

/-- C9 amended: the internal width equals
`floor(planes * base_width / 64) * groups` - the floor is taken before
the multiplication by `groups`, not once over the whole product. -/
theorem bottleneck_width_floor_before_groups (planes base_width groups : Nat) :
    (bottleneck_width planes base_width groups : Int)
      = ⌊(planes * base_width : ℚ) / 64⌋ * groups := by
  have h1 : ((planes * base_width : ℕ) : ℚ) / ((64 : ℕ) : ℚ) = (planes * base_width : ℚ) / 64 := by
    push_cast
    ring
  have h2 : ⌊(planes * base_width : ℚ) / 64⌋ = ((planes * base_width / 64 : ℕ) : Int) := by
    rw [← h1, ← Nat.floor_div_eq_div (α := ℚ) (planes * base_width) 64]
    rw [Int.natCast_floor_eq_floor]
    positivity
  rw [h2]
  unfold bottleneck_width
  push_cast
  ring

/-- C10: the first block of a stage is always constructed with the
dilation current before any substitution (`previous_dilation`), while
every later block of the stage receives the updated cumulative
dilation - `previous * stride` when `dilate` is set, unchanged
otherwise (so with `dilate = false` all blocks share one dilation). -/
theorem make_layer_dilation_assignment (groups base_width : Nat) (bnInit : BN)
    (planes blocks stride : Nat) (dilate : Bool) (ctx : BuildCtx) :
    (make_layer groups base_width bnInit planes blocks stride dilate ctx).1.head?.map
        Bottleneck.dilation = some ctx.dilation
    ∧ ∀ m ∈ (make_layer groups base_width bnInit planes blocks stride dilate ctx).1.tail,
        m.dilation = if dilate then ctx.dilation * stride else ctx.dilation := by
  constructor
  · rfl
  · intro m hm
    simp only [make_layer, mkBottleneck, List.tail_cons] at hm
    have := List.eq_of_mem_replicate hm
    subst this
    rfl

/-- Evaluation of a whole stage built by `_make_layer` when the
effective stride is 1 (either requested stride 1, or any stride folded
away by `dilate`): the stage maps `(b, inplanes, h, w)` to
`(b, planes * 2, h, w)`. -/
lemma stageShape_make_layer_stride1 (groups base_width planes blocks stride : Nat)
    (dilate : Bool) (bnInit : BN) (ctx : BuildCtx) (b h w : Nat)
    (hg : 1 ≤ groups) (hd : 1 ≤ ctx.dilation) (hs : 1 ≤ stride) (hh : 1 ≤ h) (hw : 1 ≤ w)
    (hstr : (if dilate then 1 else stride) = 1) :
    stageShape (make_layer groups base_width bnInit planes blocks stride dilate ctx).1
      ⟨b, ctx.inplanes, h, w⟩ = some ⟨b, planes * 2, h, w⟩ := by
  have hnd : 1 ≤ (if dilate then ctx.dilation * stride else ctx.dilation) := by
    cases dilate
    · simpa using hd
    · simpa using Nat.mul_le_mul hd hs
  simp only [make_layer, mkBottleneck, Bottleneck.expansion]
  rw [hstr]
  by_cases h2 : ctx.inplanes = planes * 2
  · rw [if_neg (by simp [h2])]
    have hf := bottleneck_forwardShape_stride1 ctx.inplanes planes groups base_width
      ctx.dilation b h w none bnInit bnInit bnInit hg hd hh hw (Or.inl ⟨rfl, h2⟩)
    simp only [stageShape, hf]
    exact stageShape_replicate_stride1 (blocks - 1) planes groups base_width _ b h w
      bnInit bnInit bnInit hg hnd hh hw
  · rw [if_pos (Or.inr h2)]
    have hf := bottleneck_forwardShape_stride1 ctx.inplanes planes groups base_width
      ctx.dilation b h w (some (conv1x1 ctx.inplanes (planes * 2) 1, bnInit))
      bnInit bnInit bnInit hg hd hh hw (Or.inr ⟨bnInit, rfl⟩)
    simp only [stageShape, hf]
    exact stageShape_replicate_stride1 (blocks - 1) planes groups base_width _ b h w
      bnInit bnInit bnInit hg hnd hh hw

/-- C5: building a stage with `dilate = true` and requested stride 2
updates the cumulative dilation to `previous_dilation * 2`, hands the
first block an effective stride parameter of 1, and produces a stage
whose output spatial size equals that of the same stage built with
stride 1 and no dilation substitution, for any input spatial size
(both preserve the spatial size entirely). -/
theorem make_layer_dilate_substitution (groups base_width planes blocks b h w : Nat)
    (bnInit : BN) (ctx : BuildCtx)
    (hg : 1 ≤ groups) (hd : 1 ≤ ctx.dilation) (hh : 1 ≤ h) (hw : 1 ≤ w) :
    (make_layer groups base_width bnInit planes blocks 2 true ctx).2.dilation
        = ctx.dilation * 2
    ∧ (make_layer groups base_width bnInit planes blocks 2 true ctx).1.head?.map
        Bottleneck.stride = some 1
    ∧ stageShape (make_layer groups base_width bnInit planes blocks 2 true ctx).1
          ⟨b, ctx.inplanes, h, w⟩
        = stageShape (make_layer groups base_width bnInit planes blocks 1 false ctx).1
          ⟨b, ctx.inplanes, h, w⟩ := by
  refine ⟨rfl, rfl, ?_⟩
  rw [stageShape_make_layer_stride1 groups base_width planes blocks 2 true bnInit ctx
    b h w hg hd (by omega) hh hw rfl]
  rw [stageShape_make_layer_stride1 groups base_width planes blocks 1 false bnInit ctx
    b h w hg hd (by omega) hh hw rfl]

/-- Witness for C5 at a concrete configuration: `groups = 1`,
`base_width = 64`, `planes = 64`, 2 blocks, `ctx = (inplanes 128,
dilation 1)`, input spatial size 5 x 5. -/
theorem make_layer_dilate_substitution_witness :
    (make_layer 1 64 ⟨1, 0⟩ 64 2 2 true ⟨128, 1⟩).2.dilation = 1 * 2
    ∧ (make_layer 1 64 ⟨1, 0⟩ 64 2 2 true ⟨128, 1⟩).1.head?.map Bottleneck.stride = some 1
    ∧ stageShape (make_layer 1 64 ⟨1, 0⟩ 64 2 2 true ⟨128, 1⟩).1 ⟨1, 128, 5, 5⟩
        = stageShape (make_layer 1 64 ⟨1, 0⟩ 64 2 1 false ⟨128, 1⟩).1 ⟨1, 128, 5, 5⟩ :=
  make_layer_dilate_substitution 1 64 64 2 1 5 5 ⟨1, 0⟩ ⟨128, 1⟩
    (by decide) (by decide) (by decide) (by decide)

/-- C6: a bottleneck block constructed with `inplanes = planes * 2`,
stride 1 and no shortcut maps any input of shape
`(b, planes * 2, h, w)` with `h, w ≥ 1` to an output of exactly the
same shape (valid construction parameters: `groups ≥ 1`,
`dilation ≥ 1`). -/
theorem bottleneck_identity_shape (b planes groups base_width dilation h w : Nat)
    (x1 x2 x3 : BN)
    (hg : 1 ≤ groups) (hd : 1 ≤ dilation) (hh : 1 ≤ h) (hw : 1 ≤ w) :
    Bottleneck.forwardShape
        ⟨planes * 2, planes, 1, none, groups, base_width, dilation, x1, x2, x3⟩
        ⟨b, planes * 2, h, w⟩
      = some ⟨b, planes * 2, h, w⟩ :=
  bottleneck_forwardShape_stride1 (planes * 2) planes groups base_width dilation b h w
    none x1 x2 x3 hg hd hh hw (Or.inl ⟨rfl, rfl⟩)

/-- Witness for C6 at a concrete block (`planes = 32`,
`inplanes = 64`, spatial size 3 x 4, batch 2). -/
theorem bottleneck_identity_shape_witness :
    Bottleneck.forwardShape ⟨64, 32, 1, none, 1, 64, 1, ⟨1, 0⟩, ⟨1, 0⟩, ⟨1, 0⟩⟩ ⟨2, 64, 3, 4⟩
      = some ⟨2, 64, 3, 4⟩ :=
  bottleneck_identity_shape 2 32 1 64 1 3 4 ⟨1, 0⟩ ⟨1, 0⟩ ⟨1, 0⟩
    (by decide) (by decide) (by decide) (by decide)

/-- After both initialization passes, a block's normalization state is
exactly the claimed one. -/
lemma bottleneckBNInit_after (m : Bottleneck) :
    bottleneckBNInit (zeroInitBottleneck (constInitBottleneck m)) = true := by
  obtain ⟨ip, p, st, ds, g, bw, d, a1, a2, a3⟩ := m
  cases ds with
  | none => rfl
  | some pr => rfl

/-- After both initialization passes, the whole network's
normalization state is exactly the claimed one, whatever it was
before. -/
lemma netBNZeroInit_after (n : Network) :
    netBNZeroInit (zeroInitPass (constInitPass n)) = true := by
  obtain ⟨b1, l1, l2, l3, c1, c2, c3, c4, c5, c6, c7, c8⟩ := n
  simp [netBNZeroInit, zeroInitPass, constInitPass, List.all_map, Function.comp,
    bottleneckBNInit_after, bnIsInit, bnOne]

/-- C7: whenever construction with `zero_init_residual = true`
succeeds, every bottleneck block's third normalization layer has
weight exactly 0, and every other normalization layer in the network
(first and second per block, shortcut normalizations, stem and fusion
branches) has weight 1; all normalization biases are 0 - independent
of the state `bnInit` normalization layers start in. -/
theorem zero_init_residual_bn_weights (layers : List Nat) (rswd : Option (List Bool))
    (groups width_per_group : Nat) (bnInit : BN) (net : Network)
    (h : setup_network layers rswd groups width_per_group true bnInit = Except.ok net) :
    netBNZeroInit net = true := by
  simp only [setup_network] at h
  split at h
  · exact Except.noConfusion h
  · rw [Except.ok.injEq] at h
    subst h
    simp only [initWeights, if_true]
    exact netBNZeroInit_after _

/-- Witness for C7: the default configuration (`layers = [2, 1, 1]`,
no dilation substitution, `groups = 1`, `width_per_group = 64`),
starting from an arbitrary pre-initialization state `(5, 7)`. -/
theorem zero_init_residual_bn_weights_witness :
    netBNZeroInit ((exceptToOption (setup_network [2, 1, 1] none 1 64 true ⟨5, 7⟩)).getD emptyNet)
      = true :=
  zero_init_residual_bn_weights [2, 1, 1] none 1 64 ⟨5, 7⟩ _ (by rfl)

/-- C8: for the three-stage architecture, construction fails with the
configuration error exactly when a non-`None`
`replace_stride_with_dilation` list has a length different from the
stage block-count list; with `None` the flags default to all-`false`
(construction behaves exactly as with an explicit all-false list) and
construction succeeds. -/
theorem setup_network_validation (layers : List Nat) (rswd : Option (List Bool))
    (groups width_per_group : Nat) (zero_init_residual : Bool) (bnInit : BN)
    (hlen : layers.length = 3) :
    ((∃ e, setup_network layers rswd groups width_per_group zero_init_residual bnInit
        = Except.error e)
      ↔ ∃ l, rswd = some l ∧ l.length ≠ layers.length)
    ∧ (rswd = none →
        setup_network layers none groups width_per_group zero_init_residual bnInit
          = setup_network layers (some (List.replicate layers.length false)) groups
              width_per_group zero_init_residual bnInit
        ∧ ∃ net, setup_network layers none groups width_per_group zero_init_residual bnInit
            = Except.ok net) := by
  constructor
  · cases rswd with
    | none => simp [setup_network]
    | some l =>
      by_cases hL : l.length = layers.length <;> simp [setup_network, hL]
  · intro hr
    constructor
    · simp [setup_network]
    · cases hE : setup_network layers none groups width_per_group zero_init_residual bnInit with
      | ok n => exact ⟨n, rfl⟩
      | error e =>
        simp [setup_network] at hE

/-- Witness for C8 at `layers = [2, 1, 1]` and a mismatched one-element
flag list, which must (and does) make construction fail. -/
theorem setup_network_validation_witness :
    ((∃ e, setup_network [2, 1, 1] (some [true]) 1 64 true ⟨1, 0⟩ = Except.error e)
      ↔ ∃ l, (some [true] : Option (List Bool)) = some l
          ∧ l.length ≠ ([2, 1, 1] : List Nat).length)
    ∧ ((some [true] : Option (List Bool)) = none →
        setup_network [2, 1, 1] none 1 64 true ⟨1, 0⟩
          = setup_network [2, 1, 1] (some (List.replicate ([2, 1, 1] : List Nat).length false))
              1 64 true ⟨1, 0⟩
        ∧ ∃ net, setup_network [2, 1, 1] none 1 64 true ⟨1, 0⟩ = Except.ok net) :=
  setup_network_validation [2, 1, 1] (some [true]) 1 64 true ⟨1, 0⟩ (by decide)

end Rosnav
